import Mathlib

/-!
Shallow embedding of the imagen-api gateway (Flask/Azure image-generation
dispatcher) and proofs about its capability validation, dispatch, provider
adapters and async poller.

Python dictionaries are modelled as association lists `List (String × α)`;
`dget` looks a key up with Python's merge semantics (a later binding wins,
matching `{**base, **kwargs}`), and `dmem` is Python's `key in dict`.
Bytes are modelled as `List Nat`; optional / possibly-empty form values as
`Option String` with Python falsiness made explicit.
-/

/-- Association-list lookup where the LAST binding of a key wins, matching
the semantics of Python dict construction by `{**a, **b}` merge. -/
def dget (k : String) : List (String × α) → Option α
  | [] => none
  | (k₀, v) :: rest =>
    match dget k rest with
    | some v₀ => some v₀
    | none => if k₀ = k then some v else none

/-- Python `k in d` membership test on a dict. -/
def dmem (k : String) (d : List (String × α)) : Bool :=
  d.any (fun p => p.1 = k)

/-- Python `d.get(k, default)`. -/
def dgetD (k : String) (d : List (String × α)) (default : α) : α :=
  (dget k d).getD default

theorem dget_append_right {k : String} {ys : List (String × α)} {v : α}
    (xs : List (String × α)) (h : dget k ys = some v) :
    dget k (xs ++ ys) = some v := by
  induction xs with
  | nil => simpa using h
  | cons p xs ih =>
    rw [List.cons_append]
    show (match dget k (xs ++ ys) with
      | some v₀ => some v₀
      | none => if p.1 = k then some p.2 else none) = some v
    rw [ih]

theorem dget_isSome_of_dmem {k : String} {d : List (String × α)}
    (h : dmem k d = true) : (dget k d).isSome := by
  induction d with
  | nil => simp [dmem] at h
  | cons p rest ih =>
    simp only [dmem, List.any_cons, Bool.or_eq_true, decide_eq_true_eq] at h
    show (Option.isSome (match dget k rest with
      | some v₀ => some v₀
      | none => if p.1 = k then some p.2 else none)) = true
    cases hr : dget k rest with
    | some v => simp
    | none =>
      rcases h with h | h
      · simp [h]
      · have := ih (by simpa [dmem] using h)
        rw [hr] at this
        simp at this

theorem dmem_of_dget_some {k : String} {d : List (String × α)} {v : α}
    (h : dget k d = some v) : dmem k d = true := by
  induction d generalizing v with
  | nil => simp [dget] at h
  | cons p rest ih =>
    have h₂ : (match dget k rest with
      | some v₀ => some v₀
      | none => if p.1 = k then some p.2 else none) = some v := h
    simp only [dmem, List.any_cons, Bool.or_eq_true, decide_eq_true_eq]
    cases hr : dget k rest with
    | some v₀ => exact Or.inr (by simpa [dmem] using ih hr)
    | none =>
      rw [hr] at h₂
      by_cases hk : p.1 = k
      · exact Or.inl hk
      · simp [hk] at h₂

/-- A key absent from every binding is not found. -/
theorem dget_eq_none_of_forall {k : String} {d : List (String × α)}
    (h : ∀ p ∈ d, p.1 ≠ k) : dget k d = none := by
  induction d with
  | nil => rfl
  | cons p rest ih =>
    have hrest : dget k rest = none := ih (fun q hq => h q (List.mem_cons_of_mem p hq))
    simp only [dget, hrest]
    have : p.1 ≠ k := h p (List.mem_cons_self p rest)
    simp [this]

/-! ## Capability registry and `validate_request` (src/app.py lines 32-60,
identical in src/index.py lines 27-44).

The registry is `MODELS_CONFIG`: provider name → per-provider table, which
maps a model name (or the wildcard key `"*"`) to the list of supported task
strings. `validate_request` returns `(bool, str)` in Python; we record which
of the four outcomes (distinguished by the error message produced) occurs. -/

abbrev ProviderTable := List (String × List String)
abbrev Registry := List (String × ProviderTable)

inductive ValidationResult where
  /-- `(True, "")` -/
  | ok : ValidationResult
  /-- `"Provider '...' not found in configuration."` -/
  | unknownProvider : ValidationResult
  /-- `"Model '...' not found under provider '...'."` -/
  | unknownModel : ValidationResult
  /-- `"Task '...' not supported ..."` (either message variant) -/
  | unsupportedTask : ValidationResult
  deriving DecidableEq, Repr

/-- `validate_request(provider, model, task)` from src/app.py:32-60:
reject if the provider key is absent; if the provider's table contains the
wildcard key `"*"`, check the task against the wildcard task list only;
otherwise require the model key and check the task against its task list. -/
def validate_request (cfg : Registry) (provider model task : String) :
    ValidationResult :=
  match dget provider cfg with
  | none => .unknownProvider
  | some provider_models =>
    match dget "*" provider_models with
    | some wildcard_tasks =>
      if task ∈ wildcard_tasks then .ok else .unsupportedTask
    | none =>
      match dget model provider_models with
      | none => .unknownModel
      | some tasks =>
        if task ∈ tasks then .ok else .unsupportedTask

/-! ### Claims C4 and C10 about `validate_request` -/

/-- C4: `validate_request` fails with the unknown-provider outcome exactly
when the provider key is absent from the registry; when the provider's table
contains the wildcard key it fails with the unsupported-task outcome exactly
when the task is outside the wildcard task set (the model is not consulted);
for an explicit table it fails with the unknown-model outcome exactly when the
model key is absent and otherwise with the unsupported-task outcome exactly
when the task is outside that model's task set; in all remaining cases it
succeeds. -/
theorem validate_request_characterization (cfg : Registry) (p m t : String) :
    (validate_request cfg p m t = .unknownProvider ↔ dget p cfg = none) ∧
    (validate_request cfg p m t = .unknownModel ↔
      ∃ tbl, dget p cfg = some tbl ∧ dget "*" tbl = none ∧ dget m tbl = none) ∧
    (validate_request cfg p m t = .unsupportedTask ↔
      ((∃ tbl w, dget p cfg = some tbl ∧ dget "*" tbl = some w ∧ t ∉ w) ∨
       (∃ tbl ts, dget p cfg = some tbl ∧ dget "*" tbl = none ∧
         dget m tbl = some ts ∧ t ∉ ts))) ∧
    (validate_request cfg p m t = .ok ↔
      ((∃ tbl w, dget p cfg = some tbl ∧ dget "*" tbl = some w ∧ t ∈ w) ∨
       (∃ tbl ts, dget p cfg = some tbl ∧ dget "*" tbl = none ∧
         dget m tbl = some ts ∧ t ∈ ts))) := by
  cases hp : dget p cfg with
  | none => simp [validate_request, hp]
  | some tbl =>
    cases hw : dget "*" tbl with
    | some w =>
      by_cases ht : t ∈ w
      · simp [validate_request, hp, hw, ht]
      · simp [validate_request, hp, hw, ht]
    | none =>
      cases hm : dget m tbl with
      | none => simp [validate_request, hp, hw, hm]
      | some ts =>
        by_cases ht : t ∈ ts
        · simp [validate_request, hp, hw, hm, ht]
        · simp [validate_request, hp, hw, hm, ht]

/-- Witness for C4 at a concrete registry and request. -/
theorem validate_request_characterization_witness :
    validate_request [] "cloudflare" "modelX" "text_to_image" =
      ValidationResult.unknownProvider :=
  (validate_request_characterization [] "cloudflare" "modelX"
    "text_to_image").1.mpr rfl

/-- C10: if a provider's capability table contains the wildcard key `"*"`
anywhere, only the wildcard task set is consulted: the validation outcome is
independent of the model string, and equals success exactly for tasks in the
wildcard set — any explicit per-model entries in that table are ignored. -/
theorem validate_request_wildcard_overrides (cfg : Registry) (p t : String)
    (tbl : ProviderTable) (w : List String)
    (hp : dget p cfg = some tbl) (hw : dget "*" tbl = some w) :
    (∀ m m₂ : String, validate_request cfg p m t = validate_request cfg p m₂ t) ∧
    (∀ m : String, validate_request cfg p m t =
      if t ∈ w then .ok else .unsupportedTask) := by
  refine ⟨fun m m₂ => ?_, fun m => ?_⟩ <;> simp [validate_request, hp, hw]

/-- A capability table holding a wildcard entry alongside an explicit entry
for `modelX`, used to exhibit C10 concretely. -/
def tblC10 : ProviderTable := [("*", ["text_to_image"]), ("modelX", ["image_to_image"])]

def cfgC10 : Registry := [("hub", tblC10)]

/-- Witness for C10: the explicit `modelX : [image_to_image]` entry is
ignored because the table also holds a wildcard entry. -/
theorem validate_request_wildcard_overrides_witness :
    validate_request cfgC10 "hub" "modelX" "image_to_image" =
      ValidationResult.unsupportedTask := by
  have h := (validate_request_wildcard_overrides cfgC10 "hub" "image_to_image"
    tblC10 ["text_to_image"] rfl rfl).2 "modelX"
  rw [h]
  decide

/-! ## Provider abstraction: `ImageProvider.generate`
(src/providers/provider.py lines 12-42).

`generate(task, **params)` pops `prompt` (and for image-to-image
`input_image`) out of the keyword bag, checks them for Python falsiness
(`not prompt` — absent or empty), and dispatches to `text_to_image` /
`image_to_image`, raising `ValueError` otherwise. We record which call is
made (with the remaining keyword bag) or which `ValueError` is raised. -/

abbrev Bytes := List Nat

/-- A value in a Python keyword-argument bag / JSON payload. -/
inductive PVal where
  | str (s : String)
  | nat (n : Nat)
  /-- the float literal `1.0` (default of `ref_strength`) -/
  | floatOne
  /-- `base64.b64encode(img).decode("utf-8")` -/
  | b64 (img : Bytes)
  /-- a caller-supplied value of any other shape -/
  | ext (tag : Nat)
  deriving DecidableEq, Repr

abbrev Kwargs := List (String × PVal)

/-- The keyword arguments of one `generate` call, with `prompt` and
`input_image` (the keys `generate` itself pops) split out. -/
structure GenParams where
  prompt : Option String
  input_image : Option Bytes
  extra : Kwargs
  deriving DecidableEq, Repr

/-- Python falsiness of an optional string field (`not prompt`). -/
def strFalsy : Option String → Bool
  | none => true
  | some s => s = ""

/-- Python falsiness of an optional bytes field (`not input_image`). -/
def bytesFalsy : Option Bytes → Bool
  | none => true
  | some b => b = []

inductive GenerateCall where
  /-- `ValueError(f"Unsupported task type: {task}. ...")` -/
  | invalidTask (task : String)
  /-- `ValueError("Text-to-image task requires a 'prompt' parameter.")` -/
  | missingParameterT2I
  /-- `ValueError("Image-to-image task requires both 'prompt' and 'input_image' parameters.")` -/
  | missingParameterI2I
  /-- `return self.text_to_image(prompt, **params)` -/
  | callTextToImage (prompt : String) (kwargs : Kwargs)
  /-- `return self.image_to_image(input_image, prompt, **params)` -/
  | callImageToImage (input_image : Bytes) (prompt : String) (kwargs : Kwargs)
  deriving DecidableEq, Repr

/-- `ImageProvider.generate` from src/providers/provider.py:12-42. -/
def ImageProvider.generate (task : String) (params : GenParams) : GenerateCall :=
  if task = "text_to_image" then
    if strFalsy params.prompt then .missingParameterT2I
    else .callTextToImage (params.prompt.getD "") params.extra
  else if task = "image_to_image" then
    if strFalsy params.prompt || bytesFalsy params.input_image then
      .missingParameterI2I
    else .callImageToImage (params.input_image.getD []) (params.prompt.getD "")
      params.extra
  else .invalidTask task

/-- C6: for every task string outside {text_to_image, image_to_image} and
every parameter bag, `generate` raises the invalid-task `ValueError` and
never dispatches to either adapter primitive. -/
theorem generate_invalid_task (task : String) (params : GenParams)
    (h₁ : task ≠ "text_to_image") (h₂ : task ≠ "image_to_image") :
    ImageProvider.generate task params = .invalidTask task ∧
    (∀ p kw, ImageProvider.generate task params ≠ .callTextToImage p kw) ∧
    (∀ img p kw,
      ImageProvider.generate task params ≠ .callImageToImage img p kw) := by
  unfold ImageProvider.generate
  simp [h₁, h₂]

/-- Witness for C6 at the concrete task `"upscale"`. -/
theorem generate_invalid_task_witness :
    ImageProvider.generate "upscale" ⟨some "a cat", none, []⟩ =
      GenerateCall.invalidTask "upscale" :=
  (generate_invalid_task "upscale" ⟨some "a cat", none, []⟩
    (by decide) (by decide)).1

/-- C7: every `generate("image_to_image", ...)` call with the input image
absent raises the missing-parameter `ValueError` and never dispatches to an
adapter primitive (so no backend call is attempted). -/
theorem generate_i2i_missing_image (params : GenParams)
    (h : params.input_image = none) :
    ImageProvider.generate "image_to_image" params = .missingParameterI2I ∧
    (∀ p kw,
      ImageProvider.generate "image_to_image" params ≠ .callTextToImage p kw) ∧
    (∀ img p kw,
      ImageProvider.generate "image_to_image" params ≠
        .callImageToImage img p kw) := by
  unfold ImageProvider.generate
  simp [h, bytesFalsy]

/-- Witness for C7 with a concrete prompt and no image. -/
theorem generate_i2i_missing_image_witness :
    ImageProvider.generate "image_to_image" ⟨some "a cat", none, []⟩ =
      GenerateCall.missingParameterI2I :=
  (generate_i2i_missing_image ⟨some "a cat", none, []⟩ rfl).1

/-! ## Async poller: `ImageProvider._poll_for_result`
(src/providers/provider.py lines 77-108).

Time is modelled discretely: each loop iteration advances the clock by
`poll_interval` (the `time.sleep` at the bottom of the loop body), so
`elapsed` is `time.time() - start_time` at the top of an iteration and
`polls` counts the `status_func` calls made so far. The loop runs while
`elapsed < timeout`; `status_func i` is what the i-th poll (0-based)
returns. -/

inductive JobStatus where
  | pending
  | complete
  | failed
  deriving DecidableEq, Repr

inductive PollOutcome where
  /-- `return result_func(task_id)` — carries the number of `status_func`
  polls made and the number of `result_func` calls made (always one). -/
  | success (polls resultCalls : Nat) (value : Bytes)
  /-- `ValueError(f"Task {task_id} failed.")` — carries the polls made. -/
  | jobFailed (polls : Nat)
  /-- `TimeoutError(...)` — carries the polls made. -/
  | jobTimeout (polls : Nat)
  deriving DecidableEq, Repr

/-- The `while time.time() - start_time < timeout` loop of
`_poll_for_result`, entered with the given `elapsed` clock and `polls`
count. `poll_interval` must be positive (the code's default is 5). -/
def pollLoop (status_func : Nat → JobStatus) (result_func : String → Bytes)
    (task_id : String) (timeout poll_interval : Nat)
    (hpi : 0 < poll_interval) (elapsed polls : Nat) : PollOutcome :=
  if elapsed < timeout then
    match status_func polls with
    | .complete => .success (polls + 1) 1 (result_func task_id)
    | .failed => .jobFailed (polls + 1)
    | .pending =>
      pollLoop status_func result_func task_id timeout poll_interval hpi
        (elapsed + poll_interval) (polls + 1)
  else .jobTimeout polls
termination_by timeout - elapsed
decreasing_by omega

/-- `ImageProvider._poll_for_result(status_func, result_func, task_id,
timeout, poll_interval)`: start the clock at 0 and poll. -/
def ImageProvider.poll_for_result (status_func : Nat → JobStatus)
    (result_func : String → Bytes) (task_id : String)
    (timeout poll_interval : Nat) (hpi : 0 < poll_interval) : PollOutcome :=
  pollLoop status_func result_func task_id timeout poll_interval hpi 0 0

theorem pollLoop_pending_then_complete (status_func : Nat → JobStatus)
    (result_func : String → Bytes) (task_id : String)
    (timeout poll_interval : Nat) (hpi : 0 < poll_interval) :
    ∀ (N polls elapsed : Nat),
      (∀ i, i < N → status_func (polls + i) = .pending) →
      status_func (polls + N) = .complete →
      elapsed + N * poll_interval < timeout →
      pollLoop status_func result_func task_id timeout poll_interval hpi
        elapsed polls = .success (polls + N + 1) 1 (result_func task_id) := by
  intro N
  induction N with
  | zero =>
    intro polls elapsed hpend hcomp hlt
    have he : elapsed < timeout := by omega
    rw [pollLoop, if_pos he]
    simp only [Nat.add_zero] at hcomp
    rw [hcomp]
  | succ N ih =>
    intro polls elapsed hpend hcomp hlt
    have hmul : 0 < (N + 1) * poll_interval := Nat.mul_pos (Nat.succ_pos N) hpi
    have he : elapsed < timeout := by omega
    rw [pollLoop, if_pos he]
    have h0 : status_func polls = .pending := by
      have := hpend 0 (Nat.succ_pos N)
      simpa using this
    rw [h0]
    have hpend₂ : ∀ i, i < N → status_func (polls + 1 + i) = .pending := by
      intro i hi
      have h := hpend (i + 1) (by omega)
      have harg : polls + (i + 1) = polls + 1 + i := by omega
      rwa [harg] at h
    have hcomp₂ : status_func (polls + 1 + N) = .complete := by
      have harg : polls + (N + 1) = polls + 1 + N := by omega
      rwa [harg] at hcomp
    have hlt₂ : (elapsed + poll_interval) + N * poll_interval < timeout := by
      have hsm : (N + 1) * poll_interval = N * poll_interval + poll_interval :=
        Nat.succ_mul N poll_interval
      omega
    have := ih (polls + 1) (elapsed + poll_interval) hpend₂ hcomp₂ hlt₂
    rw [this]
    have : polls + 1 + N + 1 = polls + (N + 1) + 1 := by omega
    rw [this]

theorem pollLoop_always_pending (status_func : Nat → JobStatus)
    (result_func : String → Bytes) (task_id : String)
    (timeout poll_interval : Nat) (hpi : 0 < poll_interval)
    (hall : ∀ i, status_func i = .pending) :
    ∀ (fuel elapsed polls : Nat), timeout - elapsed ≤ fuel →
      elapsed = polls * poll_interval →
      ∃ k, pollLoop status_func result_func task_id timeout poll_interval hpi
        elapsed polls = .jobTimeout k ∧ timeout ≤ k * poll_interval := by
  intro fuel
  induction fuel with
  | zero =>
    intro elapsed polls hf hinv
    have he : ¬ elapsed < timeout := by omega
    rw [pollLoop, if_neg he]
    exact ⟨polls, rfl, by omega⟩
  | succ n ih =>
    intro elapsed polls hf hinv
    rw [pollLoop]
    by_cases he : elapsed < timeout
    · rw [if_pos he, hall polls]
      exact ih (elapsed + poll_interval) (polls + 1) (by omega)
        (by rw [hinv, Nat.succ_mul])
    · rw [if_neg he]
      exact ⟨polls, rfl, by omega⟩

/-- C5: the poller contract. (1) If the status function reports `pending`
N times and then `complete`, with N·pollInterval < timeout, the poller
returns the result function's output, calling it exactly once (after N+1
polls). (2) If the status function always reports `pending`, the poller
raises the timeout error, at a poll count whose elapsed time is ≥ timeout.
(3) If the status function reports `failed` on the first poll, the poller
raises the job-failed error after exactly one poll, never calling the
result function. -/
theorem poll_for_result_contract :
    (∀ (status_func : Nat → JobStatus) (result_func : String → Bytes)
       (task_id : String) (timeout poll_interval : Nat)
       (hpi : 0 < poll_interval) (N : Nat),
       (∀ i, i < N → status_func i = .pending) →
       status_func N = .complete →
       N * poll_interval < timeout →
       ImageProvider.poll_for_result status_func result_func task_id timeout
         poll_interval hpi = .success (N + 1) 1 (result_func task_id)) ∧
    (∀ (status_func : Nat → JobStatus) (result_func : String → Bytes)
       (task_id : String) (timeout poll_interval : Nat)
       (hpi : 0 < poll_interval),
       (∀ i, status_func i = .pending) →
       ∃ k, ImageProvider.poll_for_result status_func result_func task_id
         timeout poll_interval hpi = .jobTimeout k ∧
         timeout ≤ k * poll_interval) ∧
    (∀ (status_func : Nat → JobStatus) (result_func : String → Bytes)
       (task_id : String) (timeout poll_interval : Nat)
       (hpi : 0 < poll_interval),
       0 < timeout → status_func 0 = .failed →
       ImageProvider.poll_for_result status_func result_func task_id timeout
         poll_interval hpi = .jobFailed 1) := by
  refine ⟨?_, ?_, ?_⟩
  · intro status_func result_func task_id timeout poll_interval hpi N
      hpend hcomp hlt
    have h := pollLoop_pending_then_complete status_func result_func task_id
      timeout poll_interval hpi N 0 0 (by simpa using hpend) (by simpa using hcomp)
      (by omega)
    simpa [ImageProvider.poll_for_result] using h
  · intro status_func result_func task_id timeout poll_interval hpi hall
    have h := pollLoop_always_pending status_func result_func task_id timeout
      poll_interval hpi hall timeout 0 0 (by omega) (by simp)
    simpa [ImageProvider.poll_for_result] using h
  · intro status_func result_func task_id timeout poll_interval hpi ht h0
    unfold ImageProvider.poll_for_result
    rw [pollLoop, if_pos ht, h0]

/-- Status function for the first poller scenario: `pending` twice, then
`complete`. -/
def statusC5a : Nat → JobStatus := fun i => if i < 2 then .pending else .complete

def statusC5b : Nat → JobStatus := fun _ => .pending

def statusC5c : Nat → JobStatus := fun _ => .failed

def resultC5 : String → Bytes := fun _ => [80, 78, 71]

/-- Witness for C5: the three poller scenarios at the code's default
timeout 60 and poll interval 5. -/
theorem poll_for_result_contract_witness :
    ImageProvider.poll_for_result statusC5a resultC5 "job-1" 60 5 (by decide) =
      .success 3 1 [80, 78, 71] ∧
    (∃ k, ImageProvider.poll_for_result statusC5b resultC5 "job-2" 60 5
      (by decide) = .jobTimeout k ∧ 60 ≤ k * 5) ∧
    ImageProvider.poll_for_result statusC5c resultC5 "job-3" 60 5 (by decide) =
      .jobFailed 1 := by
  refine ⟨?_, ?_, ?_⟩
  · exact poll_for_result_contract.1 statusC5a resultC5 "job-1" 60 5
      (by decide) 2 (by intro i hi; simp [statusC5a, hi]) rfl (by decide)
  · exact poll_for_result_contract.2.1 statusC5b resultC5 "job-2" 60 5
      (by decide) (fun i => rfl)
  · exact poll_for_result_contract.2.2 statusC5c resultC5 "job-3" 60 5
      (by decide) (by decide) rfl

/-! ## Cloudflare adapter payloads (src/providers/cloudflare.py lines 24-78).

The outbound JSON payload of each call: a base dict merged with `**kwargs`
last, so every caller-supplied key appears (overriding a base key of the
same name, per Python dict-merge semantics captured by `dget`). -/

/-- Payload of `CloudflareProvider.text_to_image` (cloudflare.py:42):
`{"prompt": prompt, **kwargs}`. -/
def cloudflare_t2i_payload (prompt : String) (kwargs : Kwargs) : Kwargs :=
  [("prompt", .str prompt)] ++ kwargs

/-- Payload of `CloudflareProvider.image_to_image` (cloudflare.py:69-74):
`{"prompt": prompt, "image_b64": b64(input_image), **kwargs}`. -/
def cloudflare_i2i_payload (input_image : Bytes) (prompt : String)
    (kwargs : Kwargs) : Kwargs :=
  [("prompt", .str prompt), ("image_b64", .b64 input_image)] ++ kwargs

/-! ## ModelScope adapter (src/providers/modelscope.py lines 22-57). -/

/-- Payload of `ModelScopeProvider.text_to_image` (modelscope.py:37-41):
`{"model": self._model_name, "prompt": prompt, **kwargs}`. -/
def modelscope_t2i_payload (model_name prompt : String) (kwargs : Kwargs) :
    Kwargs :=
  [("model", .str model_name), ("prompt", .str prompt)] ++ kwargs

/-- The POST response seen by `ModelScopeProvider.text_to_image`:
`images = none` models a JSON body without an "images" key; each list
element is that item's "url" field. -/
structure MsResponse where
  status_code : Nat
  images : Option (List String)
  deriving DecidableEq, Repr

inductive MsOutcome where
  /-- `response.raise_for_status()` raised `HTTPError` on the POST -/
  | httpError (status : Nat)
  /-- `response_data["images"]` raised `KeyError` -/
  | keyError
  /-- `response_data["images"][0]` raised `IndexError` (list index out of range) -/
  | indexError
  /-- `image_response.raise_for_status()` raised `HTTPError` on the GET -/
  | downloadError (status : Nat)
  /-- `return image_response.content` -/
  | ok (content : Bytes)
  deriving DecidableEq, Repr

/-- Response handling of `ModelScopeProvider.text_to_image`
(modelscope.py:44-57): `raise_for_status` on the POST (4xx/5xx), then
`response_data["images"][0]["url"]` — with no guard on the key or on the
list being non-empty — then a GET of that URL. `download` gives the GET's
behavior per URL. -/
def modelscope_text_to_image (response : MsResponse)
    (download : String → Except Nat Bytes) : MsOutcome :=
  if 400 ≤ response.status_code then .httpError response.status_code
  else
    match response.images with
    | none => .keyError
    | some [] => .indexError
    | some (url :: _) =>
      match download url with
      | .error s => .downloadError s
      | .ok content => .ok content

/-! ## Aliyun (DashScope) adapter (src/providers/aliyun.py). -/

/-- `AliyunProvider._is_stable_diffusion_model` (aliyun.py:23-30):
`self._model_name.startswith("stable-diffusion")`, modelled on the
character sequences of the two strings. -/
def aliyun_is_stable_diffusion_model (model_name : String) : Bool :=
  "stable-diffusion".data.isPrefixOf model_name.data

/-- The `params` dict built by `AliyunProvider.text_to_image`
(aliyun.py:47-67): base params plus `negative_prompt` for the
stable-diffusion family, or `style` otherwise. -/
def aliyun_t2i_params (api_key model_name prompt : String) (kwargs : Kwargs) :
    Kwargs :=
  let base_params : Kwargs :=
    [("api_key", .str api_key), ("model", .str model_name),
     ("prompt", .str prompt), ("n", dgetD "n" kwargs (.nat 1)),
     ("size", dgetD "size" kwargs (.str "1024*1024"))]
  if aliyun_is_stable_diffusion_model model_name then
    base_params ++ [("negative_prompt", dgetD "negative_prompt" kwargs (.str ""))]
  else
    base_params ++ [("style", dgetD "style" kwargs (.str "<auto>"))]

/-- The `params` dict built by `AliyunProvider.image_to_image`
(aliyun.py:111-134): base params (including `sketch_image_url`, the staged
temp file) plus `negative_prompt` for the stable-diffusion family, or
`style` + `ref_mode` + `ref_strength` otherwise. -/
def aliyun_i2i_params (api_key model_name prompt temp_file_path : String)
    (kwargs : Kwargs) : Kwargs :=
  let base_params : Kwargs :=
    [("api_key", .str api_key), ("model", .str model_name),
     ("prompt", .str prompt), ("n", dgetD "n" kwargs (.nat 1)),
     ("size", dgetD "size" kwargs (.str "1024*1024")),
     ("sketch_image_url", .str temp_file_path)]
  if aliyun_is_stable_diffusion_model model_name then
    base_params ++ [("negative_prompt", dgetD "negative_prompt" kwargs (.str ""))]
  else
    base_params ++ [("style", dgetD "style" kwargs (.str "<auto>")),
      ("ref_mode", dgetD "ref_mode" kwargs (.str "repaint")),
      ("ref_strength", dgetD "ref_strength" kwargs .floatOne)]

theorem aliyun_t2i_keys (api_key model_name prompt : String) (kwargs : Kwargs) :
    (aliyun_t2i_params api_key model_name prompt kwargs).map Prod.fst =
      if aliyun_is_stable_diffusion_model model_name then
        ["api_key", "model", "prompt", "n", "size", "negative_prompt"]
      else
        ["api_key", "model", "prompt", "n", "size", "style"] := by
  unfold aliyun_t2i_params
  cases h : aliyun_is_stable_diffusion_model model_name <;> simp [h]

theorem aliyun_i2i_keys (api_key model_name prompt temp_file_path : String)
    (kwargs : Kwargs) :
    (aliyun_i2i_params api_key model_name prompt temp_file_path kwargs).map
        Prod.fst =
      if aliyun_is_stable_diffusion_model model_name then
        ["api_key", "model", "prompt", "n", "size", "sketch_image_url",
         "negative_prompt"]
      else
        ["api_key", "model", "prompt", "n", "size", "sketch_image_url",
         "style", "ref_mode", "ref_strength"] := by
  unfold aliyun_i2i_params
  cases h : aliyun_is_stable_diffusion_model model_name <;> simp [h]

/-- C9: for every model name, the stable-diffusion family gets
`negative_prompt` and never `style`/`ref_mode`/`ref_strength` in the
outbound parameter set (both calls); every other model gets `style` (and,
for image-to-image, `ref_mode` and `ref_strength`) and never
`negative_prompt`. -/
theorem aliyun_model_family_param_sets (api_key model_name prompt
    temp_file_path : String) (kwargs : Kwargs) :
    (aliyun_is_stable_diffusion_model model_name = true →
      ("negative_prompt" ∈ (aliyun_t2i_params api_key model_name prompt
          kwargs).map Prod.fst ∧
       "style" ∉ (aliyun_t2i_params api_key model_name prompt kwargs).map
          Prod.fst ∧
       "ref_mode" ∉ (aliyun_t2i_params api_key model_name prompt kwargs).map
          Prod.fst ∧
       "ref_strength" ∉ (aliyun_t2i_params api_key model_name prompt
          kwargs).map Prod.fst) ∧
      ("negative_prompt" ∈ (aliyun_i2i_params api_key model_name prompt
          temp_file_path kwargs).map Prod.fst ∧
       "style" ∉ (aliyun_i2i_params api_key model_name prompt temp_file_path
          kwargs).map Prod.fst ∧
       "ref_mode" ∉ (aliyun_i2i_params api_key model_name prompt
          temp_file_path kwargs).map Prod.fst ∧
       "ref_strength" ∉ (aliyun_i2i_params api_key model_name prompt
          temp_file_path kwargs).map Prod.fst)) ∧
    (aliyun_is_stable_diffusion_model model_name = false →
      ("style" ∈ (aliyun_t2i_params api_key model_name prompt kwargs).map
          Prod.fst ∧
       "negative_prompt" ∉ (aliyun_t2i_params api_key model_name prompt
          kwargs).map Prod.fst) ∧
      ("style" ∈ (aliyun_i2i_params api_key model_name prompt temp_file_path
          kwargs).map Prod.fst ∧
       "ref_mode" ∈ (aliyun_i2i_params api_key model_name prompt
          temp_file_path kwargs).map Prod.fst ∧
       "ref_strength" ∈ (aliyun_i2i_params api_key model_name prompt
          temp_file_path kwargs).map Prod.fst ∧
       "negative_prompt" ∉ (aliyun_i2i_params api_key model_name prompt
          temp_file_path kwargs).map Prod.fst)) := by
  constructor
  · intro h
    rw [aliyun_t2i_keys, aliyun_i2i_keys, if_pos h, if_pos h]
    refine ⟨⟨?_, ?_, ?_, ?_⟩, ?_, ?_, ?_, ?_⟩ <;> decide
  · intro h
    rw [aliyun_t2i_keys, aliyun_i2i_keys, if_neg (by simp [h]), if_neg (by simp [h])]
    refine ⟨⟨?_, ?_⟩, ?_, ?_, ?_, ?_⟩ <;> decide

/-- Witness for C9 at the two model families named in the code's doc
comments: `stable-diffusion-xl` and `wanx_v1`. -/
theorem aliyun_model_family_param_sets_witness :
    ("negative_prompt" ∈ (aliyun_t2i_params "key" "stable-diffusion-xl"
        "a cat" []).map Prod.fst ∧
     "style" ∉ (aliyun_t2i_params "key" "stable-diffusion-xl" "a cat" []).map
        Prod.fst) ∧
    ("style" ∈ (aliyun_i2i_params "key" "wanx_v1" "a cat" "/tmp/t.png"
        []).map Prod.fst ∧
     "ref_mode" ∈ (aliyun_i2i_params "key" "wanx_v1" "a cat" "/tmp/t.png"
        []).map Prod.fst ∧
     "ref_strength" ∈ (aliyun_i2i_params "key" "wanx_v1" "a cat" "/tmp/t.png"
        []).map Prod.fst ∧
     "negative_prompt" ∉ (aliyun_i2i_params "key" "wanx_v1" "a cat"
        "/tmp/t.png" []).map Prod.fst) := by
  constructor
  · have h := (aliyun_model_family_param_sets "key" "stable-diffusion-xl"
      "a cat" "/tmp/t.png" []).1 (by decide)
    exact ⟨h.1.1, h.1.2.1⟩
  · have h := (aliyun_model_family_param_sets "key" "wanx_v1" "a cat"
      "/tmp/t.png" []).2 (by decide)
    exact h.2

/-! ### Claim C3: option pass-through -/

/-- Counterexample to C3 as stated: the Aliyun adapter silently drops the
unrecognized option key `"guidance"` from its outbound parameter set — the
key is absent from the params of `text_to_image` on model `wanx_v1` even
though the caller supplied it. -/
theorem aliyun_drops_unrecognized_key :
    dget "guidance"
      (aliyun_t2i_params "key" "wanx_v1" "a cat" [("guidance", PVal.nat 9)]) =
      none := by decide

/-- C3 amended: the Cloudflare and ModelScope adapters pass every
caller-supplied option key through into the outbound payload with its given
value; the Aliyun adapter instead builds its parameter set from a fixed
recognized-key list, so every key outside that list is silently dropped
(absent from the outbound params of both calls). -/
theorem options_passthrough_amended :
    (∀ (prompt : String) (kwargs : Kwargs) (k : String) (v : PVal),
       dget k kwargs = some v →
       dget k (cloudflare_t2i_payload prompt kwargs) = some v) ∧
    (∀ (input_image : Bytes) (prompt : String) (kwargs : Kwargs) (k : String)
       (v : PVal),
       dget k kwargs = some v →
       dget k (cloudflare_i2i_payload input_image prompt kwargs) = some v) ∧
    (∀ (model_name prompt : String) (kwargs : Kwargs) (k : String) (v : PVal),
       dget k kwargs = some v →
       dget k (modelscope_t2i_payload model_name prompt kwargs) = some v) ∧
    (∀ (api_key model_name prompt temp_file_path : String) (kwargs : Kwargs)
       (k : String),
       k ∉ ["api_key", "model", "prompt", "n", "size", "sketch_image_url",
            "negative_prompt", "style", "ref_mode", "ref_strength"] →
       dget k (aliyun_t2i_params api_key model_name prompt kwargs) = none ∧
       dget k (aliyun_i2i_params api_key model_name prompt temp_file_path
         kwargs) = none) := by
  refine ⟨?_, ?_, ?_, ?_⟩
  · intro prompt kwargs k v h
    exact dget_append_right _ h
  · intro input_image prompt kwargs k v h
    exact dget_append_right _ h
  · intro model_name prompt kwargs k v h
    exact dget_append_right _ h
  · intro api_key model_name prompt temp_file_path kwargs k hk
    constructor
    · apply dget_eq_none_of_forall
      intro p hp hpk
      have hmem : p.1 ∈ (aliyun_t2i_params api_key model_name prompt
          kwargs).map Prod.fst := List.mem_map_of_mem Prod.fst hp
      rw [aliyun_t2i_keys, hpk] at hmem
      split at hmem <;> simp at hmem hk <;> tauto
    · apply dget_eq_none_of_forall
      intro p hp hpk
      have hmem : p.1 ∈ (aliyun_i2i_params api_key model_name prompt
          temp_file_path kwargs).map Prod.fst := List.mem_map_of_mem Prod.fst hp
      rw [aliyun_i2i_keys, hpk] at hmem
      split at hmem <;> simp at hmem hk <;> tauto

/-- Witness for C3 (amended): pass-through of `seed` by Cloudflare and
ModelScope, and dropping of `seed` by Aliyun, on concrete calls. -/
theorem options_passthrough_amended_witness :
    dget "seed" (cloudflare_t2i_payload "a cat" [("seed", PVal.nat 7)]) =
      some (PVal.nat 7) ∧
    dget "seed" (cloudflare_i2i_payload [1, 2] "a cat" [("seed", PVal.nat 7)]) =
      some (PVal.nat 7) ∧
    dget "seed" (modelscope_t2i_payload "MAILAND/majicflus_v1" "a cat"
      [("seed", PVal.nat 7)]) = some (PVal.nat 7) ∧
    dget "seed" (aliyun_t2i_params "key" "wanx_v1" "a cat"
      [("seed", PVal.nat 7)]) = none := by
  refine ⟨?_, ?_, ?_, ?_⟩
  · exact options_passthrough_amended.1 "a cat" [("seed", PVal.nat 7)] "seed"
      (PVal.nat 7) rfl
  · exact options_passthrough_amended.2.1 [1, 2] "a cat"
      [("seed", PVal.nat 7)] "seed" (PVal.nat 7) rfl
  · exact options_passthrough_amended.2.2.1 "MAILAND/majicflus_v1" "a cat"
      [("seed", PVal.nat 7)] "seed" (PVal.nat 7) rfl
  · exact (options_passthrough_amended.2.2.2 "key" "wanx_v1" "a cat" ""
      [("seed", PVal.nat 7)] "seed" (by decide)).1

/-! ### Claim C1: empty result list on the redirect-to-URL adapter -/

/-- C1 (code bug): on a ModelScope POST response with success status 200
and an empty `"images"` list, `text_to_image` crashes with `IndexError` at
`response_data["images"][0]` (modelscope.py:53) instead of failing with a
malformed-response error. -/
theorem modelscope_empty_images_index_error :
    modelscope_text_to_image ⟨200, some []⟩ (fun _ => .ok []) =
      MsOutcome.indexError := rfl

/-! ## Aliyun response handling and image-to-image staging
(src/providers/aliyun.py lines 69-85 and 105-154). -/

/-- The DashScope `ImageSynthesis.call` response: `results = none` models a
`rsp.output` without a `results` attribute; each list element is that
result's `url`. -/
structure DsResponse where
  status_code : Nat
  results : Option (List String)
  deriving DecidableEq, Repr

inductive DsOutcome where
  /-- `ValueError(f"...failed, status_code: ...")` on non-OK status -/
  | backendError (status : Nat)
  /-- `ValueError(f"Unexpected response format ...: no 'results' found.")` -/
  | malformedResponse
  /-- `image_response.raise_for_status()` raised `HTTPError` on the GET -/
  | downloadError (status : Nat)
  /-- `return image_response.content` -/
  | ok (content : Bytes)
  deriving DecidableEq, Repr

def HTTPStatus_OK : Nat := 200

/-- The response-handling block shared verbatim by
`AliyunProvider.text_to_image` (aliyun.py:71-85) and
`AliyunProvider.image_to_image` (aliyun.py:138-152): reject a non-OK
status, reject a missing or empty `results` list, otherwise GET the first
result's URL. -/
def aliyun_response_outcome (rsp : DsResponse)
    (download : String → Except Nat Bytes) : DsOutcome :=
  if rsp.status_code ≠ HTTPStatus_OK then .backendError rsp.status_code
  else
    match rsp.results with
    | none => .malformedResponse
    | some [] => .malformedResponse
    | some (url :: _) =>
      match download url with
      | .error s => .downloadError s
      | .ok content => .ok content

/-- The file system as a list of (path, contents) of existing files. -/
abbrev FS := List (String × Bytes)

/-- `os.unlink(path)`: remove the (first) file at `path`. -/
def os_unlink (path : String) : FS → FS
  | [] => []
  | f :: rest => if f.1 = path then rest else f :: os_unlink path rest

/-- `AliyunProvider.image_to_image` (aliyun.py:87-154): write the input
image to a fresh named temporary file (`delete=False`), then inside
`try:` build the family-dependent params, call the backend and handle the
response; `finally:` `os.unlink(temp_file_path)`. `call` gives the
backend's response to the built params, `download` the behavior of the GET
on a result URL; the result pairs the raised-or-returned outcome with the
final file-system state. -/
def aliyun_image_to_image (api_key model_name : String) (input_image : Bytes)
    (prompt : String) (kwargs : Kwargs) (call : Kwargs → DsResponse)
    (download : String → Except Nat Bytes) (temp_file_path : String)
    (fs : FS) : DsOutcome × FS :=
  let fs₁ : FS := (temp_file_path, input_image) :: fs
  let rsp := call (aliyun_i2i_params api_key model_name prompt temp_file_path
    kwargs)
  (aliyun_response_outcome rsp download, os_unlink temp_file_path fs₁)

/-- C8: on every execution of the Aliyun `image_to_image` call — success,
backend error, malformed response, or download failure, i.e. for every
backend response and every download behavior — the staged temporary copy
of the input image is gone from the file system when the call returns, and
the file system is exactly as it was before the call. -/
theorem aliyun_i2i_temp_released (api_key model_name : String)
    (input_image : Bytes) (prompt : String) (kwargs : Kwargs)
    (call : Kwargs → DsResponse) (download : String → Except Nat Bytes)
    (temp_file_path : String) (fs : FS)
    (hfresh : ∀ f ∈ fs, f.1 ≠ temp_file_path) :
    (aliyun_image_to_image api_key model_name input_image prompt kwargs call
      download temp_file_path fs).2 = fs ∧
    (∀ f ∈ (aliyun_image_to_image api_key model_name input_image prompt
      kwargs call download temp_file_path fs).2, f.1 ≠ temp_file_path) := by
  have hsnd : (aliyun_image_to_image api_key model_name input_image prompt
      kwargs call download temp_file_path fs).2 = fs := by
    simp [aliyun_image_to_image, os_unlink]
  exact ⟨hsnd, by rw [hsnd]; exact hfresh⟩

/-- Witness for C8: a concrete call whose backend returns a malformed
(empty-results) response leaves the file system unchanged. -/
theorem aliyun_i2i_temp_released_witness :
    (aliyun_image_to_image "key" "wanx_v1" [1, 2, 3] "a cat" []
      (fun _ => ⟨200, some []⟩) (fun _ => .error 404) "/tmp/tmp1.png"
      []).2 = ([] : FS) :=
  (aliyun_i2i_temp_released "key" "wanx_v1" [1, 2, 3] "a cat" []
    (fun _ => ⟨200, some []⟩) (fun _ => .error 404) "/tmp/tmp1.png" []
    (by intro f hf; simp at hf)).1

/-! ## Dispatch endpoint: `generate_image`
(src/app.py lines 63-128; src/index.py lines 47-128 is the same pipeline).

The check order in the code is: (1) the four form fields non-empty, (2)
task in the closed set, (3) `validate_request`, (4) the `image` file
present and with a filename (image-to-image only), (5) provider has a
factory, (6) dispatch to `provider_instance.generate`. -/

structure FormFile where
  filename : String
  content : Bytes
  deriving DecidableEq, Repr

/-- An inbound multipart request: `request.form.get(...)` fields (absent →
`none`) and `request.files`. -/
structure HttpRequest where
  provider : Option String
  model : Option String
  task : Option String
  prompt : Option String
  files : List (String × FormFile)
  deriving DecidableEq, Repr

inductive HandleResult where
  /-- 400 `"Missing required parameters: provider, model, task, prompt"` -/
  | errMissingParams
  /-- 400 `"Invalid task type. ..."` -/
  | errInvalidTask
  /-- 400 with the message produced by `validate_request` -/
  | errValidation (v : ValidationResult)
  /-- 400 `"Missing 'image' file for image-to-image task."` -/
  | errMissingImage
  /-- 400 `"No selected file for 'image'."` -/
  | errEmptyFilename
  /-- 500 `"Provider '...' is not implemented."` -/
  | errProviderNotImplemented
  /-- the call `provider_instance.generate(task, prompt=..., ...)` is made -/
  | dispatch (provider model task prompt : String) (input_image : Option Bytes)
  deriving DecidableEq, Repr

/-- The `/generate` endpoint `generate_image` (app.py:63-128), up to the
point where the provider call is issued; `factories` is the key set of
`PROVIDER_FACTORIES`. -/
def generate_image (cfg : Registry) (factories : List String)
    (req : HttpRequest) : HandleResult :=
  if strFalsy req.provider || strFalsy req.model || strFalsy req.task ||
      strFalsy req.prompt then .errMissingParams
  else
    let provider := req.provider.getD ""
    let model := req.model.getD ""
    let task := req.task.getD ""
    let prompt := req.prompt.getD ""
    if task ≠ "text_to_image" ∧ task ≠ "image_to_image" then .errInvalidTask
    else
      match validate_request cfg provider model task with
      | .ok =>
        let proceed : Option Bytes → HandleResult := fun input_image =>
          if provider ∈ factories then
            .dispatch provider model task prompt input_image
          else .errProviderNotImplemented
        if task = "image_to_image" then
          match dget "image" req.files with
          | none => .errMissingImage
          | some image_file =>
            if image_file.filename = "" then .errEmptyFilename
            else proceed (some image_file.content)
        else proceed none
      | v => .errValidation v

/-! ### Claim C2: ordering of the missing-image check -/

def cfgC2 : Registry := [("cloudflare", [("modelX", ["text_to_image"])])]

def factoriesC2 : List String := ["cloudflare", "modelscope", "aliyun"]

/-- A request with task `image_to_image`, no image file, and a provider
absent from the registry. -/
def reqC2 : HttpRequest :=
  ⟨some "hub", some "modelX", some "image_to_image", some "a cat", []⟩

/-- Counterexample to C2 as stated: on a request with task
`image_to_image`, no input image and an unknown provider, the caller
receives the unknown-provider validation error, not the missing-parameter
rejection the claim promises. -/
theorem generate_image_unknown_provider_beats_missing_image :
    generate_image cfgC2 factoriesC2 reqC2 =
      .errValidation .unknownProvider ∧
    generate_image cfgC2 factoriesC2 reqC2 ≠ .errMissingImage ∧
    generate_image cfgC2 factoriesC2 reqC2 ≠ .errMissingParams := by
  refine ⟨by decide, by decide, by decide⟩

/-- C2 amended: the missing-image check runs only after registry
validation. For every registry, factory set and request whose four form
fields are present and non-empty, whose task is `image_to_image` and whose
files carry no `image` entry: if registry validation fails, the caller
receives that validation error verbatim; only when validation succeeds is
the request rejected for the missing image. -/
theorem generate_image_image_check_after_validation (cfg : Registry)
    (factories : List String) (p m pr : String)
    (files : List (String × FormFile))
    (hp0 : p ≠ "") (hm0 : m ≠ "") (hpr0 : pr ≠ "")
    (himg : dget "image" files = none) :
    (validate_request cfg p m "image_to_image" ≠ .ok →
      generate_image cfg factories
        ⟨some p, some m, some "image_to_image", some pr, files⟩ =
        .errValidation (validate_request cfg p m "image_to_image")) ∧
    (validate_request cfg p m "image_to_image" = .ok →
      generate_image cfg factories
        ⟨some p, some m, some "image_to_image", some pr, files⟩ =
        .errMissingImage) := by
  constructor
  · intro hv
    cases hval : validate_request cfg p m "image_to_image" with
    | ok => exact absurd hval hv
    | unknownProvider =>
      simp [generate_image, strFalsy, hp0, hm0, hpr0, hval]
    | unknownModel =>
      simp [generate_image, strFalsy, hp0, hm0, hpr0, hval]
    | unsupportedTask =>
      simp [generate_image, strFalsy, hp0, hm0, hpr0, hval]
  · intro hv
    simp [generate_image, strFalsy, hp0, hm0, hpr0, hv, himg]

/-- Witness for C2 (amended), on a registry where `modelX` only supports
text-to-image: validation fails with unsupported-task and that error is
returned, though the image file is also missing. -/
theorem generate_image_image_check_after_validation_witness :
    generate_image cfgC2 factoriesC2
      ⟨some "cloudflare", some "modelX", some "image_to_image", some "a cat",
        []⟩ = .errValidation .unsupportedTask := by
  have h := (generate_image_image_check_after_validation cfgC2 factoriesC2
    "cloudflare" "modelX" "a cat" [] (by decide) (by decide) (by decide)
    rfl).1 (by decide)
  rw [h]
  decide
